import Mathlib

/-!
# Verification of the Backburner detector core

A shallow embedding of the Backburner screener core
(`src/backburner-detector.ts`, `src/mexc-api.ts` — the indicator half of
that file is the `indicators.ts` module referenced by the detector).

Conventions of the embedding:
* JavaScript numbers carrying prices, volumes and oscillator values are
  modelled as exact rationals (`ℚ`); timestamps as integers (`ℤ`).
* The two places where the source can produce a non-finite float
  (`calculateAvgVolume` dividing by zero) are modelled with `Option ℚ`:
  `none` stands for the NaN produced by a division whose denominator is 0.
* `Date.now()` is modelled by a `now : ℤ` argument threaded through the
  detector operations (the source reads the clock several times inside one
  call; nothing in the verified properties depends on those reads differing).
* The JavaScript `Map<string, BackburnerSetup>` keyed by
  `symbol + "-" + timeframe` is modelled as an insertion-ordered association
  list keyed by the pair `(symbol, timeframe)`; the string key determines
  that pair uniquely because timeframe names contain no dash.
* The detector's `DEFAULT_CONFIG` lives in `config.ts`, which is not part of
  the sources under verification; since the constructor accepts arbitrary
  overrides of every numeric field, the configuration is kept as an explicit
  `Config` parameter.
-/

/-- A single OHLCV candle (`types.ts`; fields as used by the core). -/
structure Candle where
  timestamp : ℤ
  open_ : ℚ
  high : ℚ
  low : ℚ
  close : ℚ
  volume : ℚ
deriving DecidableEq, Repr

/-- The default used to totalize list indexing that the source performs
only at indices it has bounds-checked. -/
def defaultCandle : Candle := ⟨0, 0, 0, 0, 0, 0⟩

/-- One oscillator sample (`RSIResult` in `types.ts`). -/
structure RSIResult where
  value : ℚ
  timestamp : ℤ
deriving DecidableEq, Repr

/-- The five timeframes of `types.ts`. -/
inductive Timeframe where
  | tf5m | tf15m | tf1h | tf4h | tf1d
deriving DecidableEq, Repr

/-- Setup lifecycle states (`SetupState` in `types.ts`). -/
inductive SetupState where
  | watching | triggered | deep_oversold | bouncing | played_out
deriving DecidableEq, Repr

/-- Direction of a structural move. -/
inductive Direction where
  | up | down
deriving DecidableEq, Repr

/-- The numeric configuration of the detector (its `config` member).
`DEFAULT_CONFIG` is constructed in `config.ts`; every field is overridable
at construction, so the configuration is an arbitrary value of this type. -/
structure Config where
  rsiPeriod : ℕ
  rsiOversoldThreshold : ℚ
  rsiDeepOversoldThreshold : ℚ
  minImpulsePercent : ℚ
deriving DecidableEq, Repr

/-! ## Indicator library (`indicators.ts`) -/

/-- Close-to-close changes: `candles[i].close - candles[i-1].close` for
`i = 1 .. length-1` (the loop at the top of `calculateRSI`). -/
def changesOf (candles : List Candle) : List ℚ :=
  (candles.zip candles.tail).map (fun p => p.2.close - p.1.close)

/-- `gains.push(change > 0 ? change : 0)` of `calculateRSI`. -/
def gainsOf (candles : List Candle) : List ℚ :=
  (changesOf candles).map (fun c => if 0 < c then c else 0)

/-- `losses.push(change < 0 ? Math.abs(change) : 0)` of `calculateRSI`. -/
def lossesOf (candles : List Candle) : List ℚ :=
  (changesOf candles).map (fun c => if c < 0 then -c else 0)

/-- The oscillator value from an average gain/loss pair: 100 when the
average loss is exactly 0, else `100 - 100/(1 + avgGain/avgLoss)`. -/
def rsiVal (avgGain avgLoss : ℚ) : ℚ :=
  if avgLoss = 0 then 100 else 100 - 100 / (1 + avgGain / avgLoss)

/-- The Wilder-smoothing loop of `calculateRSI`: one step per remaining
(gain, loss) pair, paired with the timestamp of the corresponding candle. -/
def rsiLoop (period : ℕ) : List (ℚ × ℚ) → List ℤ → ℚ → ℚ → List RSIResult
  | (g, l) :: gls, t :: ts, avgGain, avgLoss =>
    let ag := (avgGain * ((period : ℚ) - 1) + g) / (period : ℚ)
    let al := (avgLoss * ((period : ℚ) - 1) + l) / (period : ℚ)
    ⟨rsiVal ag al, t⟩ :: rsiLoop period gls ts ag al
  | _, _, _, _ => []

/-- `calculateRSI` of `indicators.ts`: empty when fewer than `period + 1`
candles, otherwise the seed sample (arithmetic-mean averages of the first
`period` gains/losses, stamped with `candles[period].timestamp`) followed by
the smoothed samples. -/
def calculateRSI (candles : List Candle) (period : ℕ) : List RSIResult :=
  if candles.length < period + 1 then []
  else
    let gains := gainsOf candles
    let losses := lossesOf candles
    let avgGain := (gains.take period).sum / (period : ℚ)
    let avgLoss := (losses.take period).sum / (period : ℚ)
    ⟨rsiVal avgGain avgLoss, (candles.getD period defaultCandle).timestamp⟩ ::
      rsiLoop period ((gains.drop period).zip (losses.drop period))
        ((candles.drop (period + 1)).map (fun c => c.timestamp)) avgGain avgLoss

/-- `getCurrentRSI`: the value of the most recent sample, if any. -/
def getCurrentRSI (candles : List Candle) (period : ℕ) : Option ℚ :=
  (calculateRSI candles period).getLast?.map (fun r => r.value)

/-- `calculateSMA`: trailing arithmetic means of each `period`-long window
(the loop runs `i = period-1 .. length-1`, empty result when the input is
shorter than the period). -/
def calculateSMA (values : List ℚ) (period : ℕ) : List ℚ :=
  if values.length < period then []
  else
    (List.range (values.length - (period - 1))).map (fun j =>
      (((values.drop j).take period).sum) / (period : ℚ))

/-- `calculateAvgVolume`: mean volume of the trailing `period` candles, or of
all candles when fewer are available.  `none` models the NaN the source
produces when the dividing denominator is zero (empty list, or `period = 0`
on the `slice(-period)` branch). -/
def calculateAvgVolume (candles : List Candle) (period : ℕ) : Option ℚ :=
  if candles.length < period then
    if candles.length = 0 then none
    else some ((candles.map (fun c => c.volume)).sum / (candles.length : ℚ))
  else
    if period = 0 then none
    else some
      (((candles.drop (candles.length - period)).map (fun c => c.volume)).sum / (period : ℚ))

/-- Result of an extremum search (`findHighestHigh` / `findLowestLow`). -/
structure ExtremumResult where
  price : ℚ
  index : ℕ
  timestamp : ℤ
deriving DecidableEq, Repr

/-- The scanning loop of `findHighestHigh`: strict `>` keeps the first
occurrence of the maximum. `best`/`bestIdx` is the running extremum; `i` is
the absolute index of the head of the remaining list. -/
def findHighestHighAux : List Candle → Candle → ℕ → ℕ → Candle × ℕ
  | [], best, bestIdx, _ => (best, bestIdx)
  | c :: cs, best, bestIdx, i =>
    if best.high < c.high then findHighestHighAux cs c i (i + 1)
    else findHighestHighAux cs best bestIdx (i + 1)

/-- `findHighestHigh`: price, index and timestamp of the first highest high.
The source indexes `candles[0]` unconditionally and is only ever called on
nonempty windows; the empty case here is an arbitrary total-ization. -/
def findHighestHigh : List Candle → ExtremumResult
  | [] => ⟨0, 0, 0⟩
  | c :: cs =>
    let r := findHighestHighAux cs c 0 1
    ⟨r.1.high, r.2, r.1.timestamp⟩

/-- The scanning loop of `findLowestLow` (strict `<`, first minimum wins). -/
def findLowestLowAux : List Candle → Candle → ℕ → ℕ → Candle × ℕ
  | [], best, bestIdx, _ => (best, bestIdx)
  | c :: cs, best, bestIdx, i =>
    if c.low < best.low then findLowestLowAux cs c i (i + 1)
    else findLowestLowAux cs best bestIdx (i + 1)

/-- `findLowestLow`: price, index and timestamp of the first lowest low. -/
def findLowestLow : List Candle → ExtremumResult
  | [] => ⟨0, 0, 0⟩
  | c :: cs =>
    let r := findLowestLowAux cs c 0 1
    ⟨r.1.low, r.2, r.1.timestamp⟩

/-- A detected structural move (the anonymous return record of
`detectImpulseMove`). -/
structure ImpulseMove where
  startIndex : ℕ
  endIndex : ℕ
  startPrice : ℚ
  endPrice : ℚ
  percentMove : ℚ
  direction : Direction
deriving DecidableEq, Repr

/-- `candles.slice(-lookbackPeriod)`: the most recent `lookbackPeriod`
candles (for positive `lookbackPeriod` not exceeding the length). -/
def recentCandles (candles : List Candle) (lookbackPeriod : ℕ) : List Candle :=
  candles.drop (candles.length - lookbackPeriod)

/-- `detectImpulseMove` of `indicators.ts`.  Indices in the returned move are
relative to the `recentCandles` window, exactly as in the source. -/
def detectImpulseMove (candles : List Candle) (minPercentMove : ℚ)
    (lookbackPeriod : ℕ) : Option ImpulseMove :=
  if candles.length < lookbackPeriod then none
  else
    let recent := recentCandles candles lookbackPeriod
    let highest := findHighestHigh recent
    let lowest := findLowestLow recent
    if lowest.index < highest.index then
      let percentMove := (highest.price - lowest.price) / lowest.price * 100
      if minPercentMove ≤ percentMove then
        some ⟨lowest.index, highest.index, lowest.price, highest.price, percentMove, .up⟩
      else none
    else if highest.index < lowest.index then
      let percentMove := (highest.price - lowest.price) / highest.price * 100
      if minPercentMove ≤ percentMove then
        some ⟨highest.index, lowest.index, highest.price, lowest.price, percentMove, .down⟩
      else none
    else none

/-- `isVolumeContracting`: false when either interval is empty, else
pullback mean volume strictly below 80% of impulse mean volume. -/
def isVolumeContracting (impulseCandles pullbackCandles : List Candle) : Bool :=
  if impulseCandles.length = 0 ∨ pullbackCandles.length = 0 then false
  else
    let impulseAvgVol :=
      ((impulseCandles.map (fun c => c.volume)).sum) / (impulseCandles.length : ℚ)
    let pullbackAvgVol :=
      ((pullbackCandles.map (fun c => c.volume)).sum) / (pullbackCandles.length : ℚ)
    decide (pullbackAvgVol < impulseAvgVol * (8 / 10))

/-- `isHigherTFBullish`: current close strictly above the trailing
20-period (in general, `smaPeriod`-period) simple moving average. -/
def isHigherTFBullish (candles : List Candle) (smaPeriod : ℕ) : Bool :=
  if candles.length < smaPeriod then false
  else
    let closes := candles.map (fun c => c.close)
    let sma := calculateSMA closes smaPeriod
    match sma.getLast?, closes.getLast? with
    | some s, some c => decide (s < c)
    | _, _ => false

/-! ## The Backburner detector (`backburner-detector.ts`) -/

/-- The key of the active-set map.  The source uses the string
`symbol + "-" + timeframe`; since no timeframe name contains a dash that
string determines the pair uniquely, so the pair is used directly. -/
abbrev SetupKey := String × Timeframe

/-- A live or just-terminated setup record (`BackburnerSetup` in
`types.ts`).  `Option` fields model the source's `undefined`-able fields;
the two average-volume fields model NaN as `none` (see `calculateAvgVolume`). -/
structure BackburnerSetup where
  symbol : String
  timeframe : Timeframe
  state : SetupState
  impulseHigh : ℚ
  impulseLow : ℚ
  impulseStartTime : ℤ
  impulseEndTime : ℤ
  impulsePercentMove : ℚ
  currentRSI : ℚ
  rsiAtTrigger : ℚ
  currentPrice : ℚ
  entryPrice : Option ℚ
  detectedAt : ℤ
  triggeredAt : Option ℤ
  lastUpdated : ℤ
  impulseAvgVolume : Option ℚ
  pullbackAvgVolume : Option ℚ
  volumeContracting : Bool
  higherTFBullish : Option Bool
deriving DecidableEq, Repr

/-- The `Map<string, BackburnerSetup>` of the detector, as an
insertion-ordered association list. -/
abbrev SetupMap := List (SetupKey × BackburnerSetup)

/-- `Map.get`. -/
def mapGet (m : SetupMap) (k : SetupKey) : Option BackburnerSetup :=
  (m.find? (fun p => decide (p.1 = k))).map (fun p => p.2)

/-- `Map.set`: replace in place when the key is present, append otherwise. -/
def mapSet (m : SetupMap) (k : SetupKey) (v : BackburnerSetup) : SetupMap :=
  if (m.find? (fun p => decide (p.1 = k))).isSome then
    m.map (fun p => if p.1 = k then (k, v) else p)
  else m ++ [(k, v)]

/-- `Map.delete`. -/
def mapDelete (m : SetupMap) (k : SetupKey) : SetupMap :=
  m.filter (fun p => decide (p.1 ≠ k))

/-- The detector's full mutable state: its configuration and its
`activeSetups` map. -/
structure Detector where
  config : Config
  activeSetups : SetupMap
deriving DecidableEq, Repr

/-- The close of the last candle (`candles[candles.length - 1].close`);
every caller has already checked the list is long enough. -/
def lastClose (candles : List Candle) : ℚ :=
  (candles.getLast?.getD defaultCandle).close

/-- The in-place field refresh at the top of `updateExistingSetup`:
current oscillator, price and update time, and the higher-timeframe flag
when one was supplied. -/
def refreshSetup (setup : BackburnerSetup) (now : ℤ) (currentRSI currentPrice : ℚ)
    (higherTFBullish : Option Bool) : BackburnerSetup :=
  { setup with
    currentRSI := currentRSI
    currentPrice := currentPrice
    lastUpdated := now
    higherTFBullish :=
      match higherTFBullish with
      | some b => some b
      | none => setup.higherTFBullish }

/-- `isSetupInvalidated`: the three invalidation rules, checked in order,
first match wins. -/
def isSetupInvalidated (config : Config) (setup : BackburnerSetup)
    (candles : List Candle) : Bool :=
  let currentPrice := lastClose candles
  if currentPrice < setup.impulseLow then true
  else if (setup.state = .triggered ∨ setup.state = .deep_oversold) ∧
      setup.impulseHigh * (99 / 100) ≤ currentPrice then true
  else if setup.state = .bouncing ∧ setup.currentRSI < config.rsiOversoldThreshold then
    true
  else false

/-- `determineSetupState`: the state-progression table, evaluated against
the record's previous state. -/
def determineSetupState (config : Config) (setup : BackburnerSetup)
    (currentRSI : ℚ) : SetupState :=
  let prevState := setup.state
  if currentRSI < config.rsiDeepOversoldThreshold then .deep_oversold
  else if currentRSI < config.rsiOversoldThreshold then .triggered
  else if prevState = .triggered ∨ prevState = .deep_oversold then
    if 40 < currentRSI then .played_out else .bouncing
  else if prevState = .bouncing then
    if 50 < currentRSI then .played_out else .bouncing
  else setup.state

/-- `isFirstOversoldAfterImpulse`: count the oscillator samples at or after
the candle position of the impulse end (mapped into the sample array via the
warm-up offset) that are below the oversold threshold; first-oversold means
at most one such sample (the current one). -/
def isFirstOversoldAfterImpulse (config : Config) (rsiValues : List RSIResult)
    (impulseEndIndex totalCandles : ℕ) : Bool :=
  let rsiOffset := totalCandles - rsiValues.length
  let startRSIIndex := impulseEndIndex - rsiOffset
  let oversoldCount :=
    ((rsiValues.drop startRSIIndex).filter
      (fun r => decide (r.value < config.rsiOversoldThreshold))).length
  decide (oversoldCount ≤ 1)

/-- `updateExistingSetup`: refresh the record, then either invalidate
(terminal, removed, returned as `played_out`) or advance the state by the
progression table (removing it when the table yields the terminal state). -/
def updateExistingSetup (d : Detector) (now : ℤ) (setup : BackburnerSetup)
    (candles : List Candle) (currentRSI currentPrice : ℚ)
    (higherTFBullish : Option Bool) : Option BackburnerSetup × Detector :=
  let key : SetupKey := (setup.symbol, setup.timeframe)
  let s1 := refreshSetup setup now currentRSI currentPrice higherTFBullish
  if isSetupInvalidated d.config s1 candles then
    (some { s1 with state := .played_out },
     { d with activeSetups := mapDelete d.activeSetups key })
  else
    let s2 := { s1 with state := determineSetupState d.config s1 currentRSI }
    if s2.state = .played_out then
      (some s2, { d with activeSetups := mapDelete d.activeSetups key })
    else
      (some s2, { d with activeSetups := mapSet d.activeSetups key s2 })

/-- `detectNewSetup`: impulse detection, pullback check, first-oversold
check, volume analysis and classification, storing the record only in an
actionable state.  The candle slices for the volume analysis use the
impulse's indices on the full candle array, exactly as the source does. -/
def detectNewSetup (d : Detector) (now : ℤ) (symbol : String) (timeframe : Timeframe)
    (candles : List Candle) (rsiValues : List RSIResult)
    (currentRSI currentPrice : ℚ) (higherTFBullish : Option Bool) :
    Option BackburnerSetup × Detector :=
  match detectImpulseMove candles d.config.minImpulsePercent 50 with
  | none => (none, d)
  | some impulse =>
    if impulse.direction ≠ .up then (none, d)
    else if impulse.endPrice ≤ currentPrice then (none, d)
    else if currentPrice ≤ impulse.startPrice then (none, d)
    else
      let isFirstOversold :=
        isFirstOversoldAfterImpulse d.config rsiValues impulse.endIndex candles.length
      if isFirstOversold = false ∧ d.config.rsiOversoldThreshold ≤ currentRSI then
        (none, d)
      else
        let impulseCandles :=
          (candles.drop impulse.startIndex).take (impulse.endIndex + 1 - impulse.startIndex)
        let pullbackCandles := candles.drop (impulse.endIndex + 1)
        let volumeContracting := isVolumeContracting impulseCandles pullbackCandles
        let state : SetupState :=
          if currentRSI < d.config.rsiDeepOversoldThreshold then .deep_oversold
          else if currentRSI < d.config.rsiOversoldThreshold then .triggered
          else .watching
        if state = .watching then (none, d)
        else
          let isActionable := state = .triggered ∨ state = .deep_oversold
          let setup : BackburnerSetup :=
            { symbol := symbol
              timeframe := timeframe
              state := state
              impulseHigh := impulse.endPrice
              impulseLow := impulse.startPrice
              impulseStartTime := (candles.getD impulse.startIndex defaultCandle).timestamp
              impulseEndTime := (candles.getD impulse.endIndex defaultCandle).timestamp
              impulsePercentMove := impulse.percentMove
              currentRSI := currentRSI
              rsiAtTrigger := currentRSI
              currentPrice := currentPrice
              entryPrice := if isActionable then some currentPrice else none
              detectedAt := now
              triggeredAt := if isActionable then some now else none
              lastUpdated := now
              impulseAvgVolume := calculateAvgVolume impulseCandles impulseCandles.length
              pullbackAvgVolume := calculateAvgVolume pullbackCandles pullbackCandles.length
              volumeContracting := volumeContracting
              higherTFBullish := higherTFBullish }
          (some setup, { d with activeSetups := mapSet d.activeSetups (symbol, timeframe) setup })

/-- `analyzeSymbol`: the public evaluate-and-update operation.  Returns the
resulting record (or `none` on insufficient data) together with the
detector's new state. -/
def analyzeSymbol (d : Detector) (now : ℤ) (symbol : String) (timeframe : Timeframe)
    (candles : List Candle) (higherTFCandles : Option (List Candle)) :
    Option BackburnerSetup × Detector :=
  if candles.length < 50 then (none, d)
  else
    let key : SetupKey := (symbol, timeframe)
    let existingSetup := mapGet d.activeSetups key
    let rsiValues := calculateRSI candles d.config.rsiPeriod
    match getCurrentRSI candles d.config.rsiPeriod with
    | none => (none, d)
    | some currentRSI =>
      if rsiValues.length < 5 then (none, d)
      else
        let currentPrice := lastClose candles
        let higherTFBullish := higherTFCandles.map (fun h => isHigherTFBullish h 20)
        match existingSetup with
        | some setup =>
          updateExistingSetup d now setup candles currentRSI currentPrice higherTFBullish
        | none =>
          detectNewSetup d now symbol timeframe candles rsiValues currentRSI
            currentPrice higherTFBullish

/-- `getActiveSetups`. -/
def getActiveSetups (d : Detector) : List BackburnerSetup :=
  d.activeSetups.map (fun p => p.2)

/-- `getSetupsByTimeframe`. -/
def getSetupsByTimeframe (d : Detector) (timeframe : Timeframe) : List BackburnerSetup :=
  (getActiveSetups d).filter (fun s => decide (s.timeframe = timeframe))

/-- `getSetupsByState`. -/
def getSetupsByState (d : Detector) (state : SetupState) : List BackburnerSetup :=
  (getActiveSetups d).filter (fun s => decide (s.state = state))

/-- `removeSetup`. -/
def removeSetup (d : Detector) (symbol : String) (timeframe : Timeframe) : Detector :=
  { d with activeSetups := mapDelete d.activeSetups (symbol, timeframe) }

/-- `clearAllSetups`. -/
def clearAllSetups (d : Detector) : Detector :=
  { d with activeSetups := [] }

/-- `getActiveSetupCount`. -/
def getActiveSetupCount (d : Detector) : ℕ :=
  d.activeSetups.length

/-! ## Specification-side definitions

Definitions in this section follow the specification's words, for comparison
against the source-derived definitions above. -/

/-- The volume-contraction flag as the specification describes it: compare
the mean volume of the candles of the detected impulse interval (the
impulse's start candle through its end candle — candles of the lookback
window, so full-array positions are offset by `length - lookback`) against
the mean volume of the candles strictly after the impulse's end; contracting
only when the pullback mean is strictly below 80% of the impulse mean, and
false when either interval is empty. -/
def specVolumeContracting (candles : List Candle) (minPercentMove : ℚ)
    (lookbackPeriod : ℕ) : Option Bool :=
  (detectImpulseMove candles minPercentMove lookbackPeriod).map (fun impulse =>
    let off := candles.length - lookbackPeriod
    let impulseInterval :=
      (candles.drop (impulse.startIndex + off)).take (impulse.endIndex + 1 - impulse.startIndex)
    let pullback := candles.drop (impulse.endIndex + 1 + off)
    isVolumeContracting impulseInterval pullback)

/-- The next-state table as the specification states it, evaluated against
the previous state: deep oversold always wins; else oversold gives
`triggered`; else a previously `triggered`/`deep_oversold` record completes
(terminal) strictly above 40 and otherwise bounces; a previously `bouncing`
record completes strictly above 50 and otherwise keeps bouncing; anything
else is unchanged. -/
def nextStateSpec (config : Config) (prevState : SetupState) (currentRSI : ℚ) :
    SetupState :=
  if currentRSI < config.rsiDeepOversoldThreshold then .deep_oversold
  else if currentRSI < config.rsiOversoldThreshold then .triggered
  else if prevState = .triggered ∨ prevState = .deep_oversold then
    if 40 < currentRSI then .played_out else .bouncing
  else if prevState = .bouncing then
    if 50 < currentRSI then .played_out else .bouncing
  else prevState

/-! ## Concrete inputs used by the counterexample and witness theorems -/

/-- A small configuration (oscillator period 2, thresholds 30/20, minimum
impulse 5%), reachable through the constructor's config overrides. -/
def cfg2 : Config := ⟨2, 30, 20, 5⟩

/-- Closes of `candlesA`: flat at 100, an impulse top of 120 at index 40,
then a pullback 110, 100, 102, 103, 103, 103, 103, 103, 95 whose period-2
oscillator is below 30 at candles 42 and 49. -/
def closeA (i : ℕ) : ℚ :=
  if i = 40 then 120 else if i = 41 then 110 else if i = 42 then 100
  else if i = 43 then 102 else if 44 ≤ i ∧ i ≤ 48 then 103
  else if i = 49 then 95 else 100

/-- 50 candles with lowest low 90 at index 0 and highest high 130 at
index 40: a qualifying upward impulse followed by a pullback in which the
oscillator goes oversold twice (candles 42 and 49). -/
def candlesA : List Candle := (List.range 50).map (fun (i : ℕ) =>
  { timestamp := (i : ℤ), open_ := closeA i,
    high := if i = 40 then 130 else closeA i + 1 / 2,
    low := if i = 0 then 90 else closeA i - 1 / 2,
    close := closeA i, volume := 10 })

/-- Closes of `candlesB`: the shape of `closeA` shifted one candle later,
preceded by one extra old candle. -/
def closeB (i : ℕ) : ℚ :=
  if i = 41 then 120 else if i = 42 then 110 else if i = 43 then 100
  else if i = 44 then 102 else if 45 ≤ i ∧ i ≤ 49 then 103
  else if i = 50 then 95 else 100

/-- 51 candles: one old candle of volume 10000 at index 0 (outside the
50-candle lookback window), then the 50-candle window with lowest low 90 at
full index 1 and highest high 130 at full index 41; all window volumes 10. -/
def candlesB : List Candle := (List.range 51).map (fun (i : ℕ) =>
  { timestamp := (i : ℤ), open_ := closeB i,
    high := if i = 41 then 130 else closeB i + 1 / 2,
    low := if i = 1 then 90 else closeB i - 1 / 2,
    close := closeB i, volume := if i = 0 then 10000 else 10 })

/-- Closes of `candlesC`: flat at 100 with a single final drop to 92. -/
def closeC (i : ℕ) : ℚ := if i = 49 then 92 else 100

/-- 50 candles whose highest high (130) sits on the final candle and whose
lowest low (90) is at index 0: the detected impulse ends at the window's
last candle, so the pullback slice is empty. -/
def candlesC : List Candle := (List.range 50).map (fun (i : ℕ) =>
  { timestamp := (i : ℤ), open_ := closeC i,
    high := if i = 49 then 130 else closeC i + 1 / 2,
    low := if i = 0 then 90 else if i = 49 then 91 else closeC i - 1 / 2,
    close := closeC i, volume := 10 })

/-- A fresh detector with configuration `cfg2`. -/
def detector2 : Detector := ⟨cfg2, []⟩

/-! ## Counterexample theorems -/

set_option maxRecDepth 4000 in
unseal Rat.add Rat.mul Rat.sub Rat.inv in
/-- C1: the claim states that, with a qualifying upward impulse and the
current price strictly inside the impulse range, a new record is created
only when at most one oscillator sample at or after the impulse end is below
the oversold threshold.  On `candlesA` the impulse ends at index 40, two
samples at or after that index are below the threshold (so
`isFirstOversoldAfterImpulse` is `false`), and the detector nevertheless
creates and stores a `deep_oversold` record: the creation guard only rejects
when the current reading is not itself oversold, so the first-oversold
requirement is not enforced. -/
theorem firstOversoldGateViolated :
    (detectImpulseMove candlesA 5 50).map (fun m => m.endIndex) = some 40 ∧
    isFirstOversoldAfterImpulse cfg2 (calculateRSI candlesA 2) 40 candlesA.length = false ∧
    (((calculateRSI candlesA 2).drop 38).filter
      (fun r => decide (r.value < cfg2.rsiOversoldThreshold))).length = 2 ∧
    (analyzeSymbol detector2 0 "XUSDT" .tf5m candlesA none).1.map (fun s => s.state) =
      some .deep_oversold ∧
    (analyzeSymbol detector2 0 "XUSDT" .tf5m candlesA none).2.activeSetups.map
      (fun p => p.1) = [("XUSDT", .tf5m)] := by
  decide

set_option maxRecDepth 4000 in
unseal Rat.add Rat.mul Rat.sub Rat.inv in
/-- C4: on the 51-candle series `candlesB` the created record's
volume-contraction flag is `true`, while the flag computed from the actual
impulse-interval and post-impulse candles (as the claim defines it,
`specVolumeContracting`) is `false`: `detectNewSetup` slices the full candle
array with window-relative impulse indices, so for series longer than the
50-candle lookback the flag is computed from the wrong candles. -/
theorem volumeContractionMisaligned :
    (analyzeSymbol detector2 0 "XUSDT" .tf5m candlesB none).1.map
      (fun s => s.volumeContracting) = some true ∧
    specVolumeContracting candlesB 5 50 = some false := by
  decide

set_option maxRecDepth 4000 in
unseal Rat.add Rat.mul Rat.sub Rat.inv in
/-- C10: on `candlesC` the detected impulse ends at the window's final
candle, the pullback slice is empty, and the created record's
`pullbackAvgVolume` is the NaN of the `0/0` the source evaluates (modelled
`none`); in particular `calculateAvgVolume` on the empty candle list with
period 0 is not a number. -/
theorem pullbackAvgVolumeNaN :
    (detectImpulseMove candlesC 5 50).map (fun m => m.endIndex) = some 49 ∧
    (analyzeSymbol detector2 0 "XUSDT" .tf5m candlesC none).1.map
      (fun s => s.pullbackAvgVolume) = some none ∧
    (analyzeSymbol detector2 0 "XUSDT" .tf5m candlesC none).1.map (fun s => s.state) =
      some .deep_oversold ∧
    calculateAvgVolume [] 0 = none := by
  decide

/-- C8: with insufficient data — fewer than 50 candles, or fewer than 5
oscillator samples — evaluate-and-update returns no result and the
detector's state, in particular its active-set map, is unchanged (also when
a live record exists for the key). -/
theorem insufficientDataNoChange (d : Detector) (now : ℤ) (symbol : String)
    (tf : Timeframe) (candles : List Candle) (higherTFCandles : Option (List Candle))
    (h : candles.length < 50 ∨ (calculateRSI candles d.config.rsiPeriod).length < 5) :
    analyzeSymbol d now symbol tf candles higherTFCandles = (none, d) := by
  unfold analyzeSymbol
  rcases h with h | h
  · simp [h]
  · by_cases h50 : candles.length < 50
    · simp [h50]
    · cases hg : getCurrentRSI candles d.config.rsiPeriod with
      | none => simp [h50, hg]
      | some r => simp [h50, hg, h]

/-- Witness for C8 at a concrete insufficient input (the empty series). -/
theorem insufficientDataNoChangeWitness :
    analyzeSymbol detector2 0 "XUSDT" .tf5m [] none = (none, detector2) :=
  insufficientDataNoChange detector2 0 "XUSDT" .tf5m [] none (Or.inl (by decide))

/-- C2: an update of an existing record is invalidated exactly when, in
order: (1) the current price is strictly below the stored impulse low, in
any state; (2) the state is `triggered` or `deep_oversold` and the current
price is at least 99% of the stored impulse high; (3) the state is
`bouncing` and the current oscillator is below the oversold threshold.  On
any invalidation the record is removed from the live set and returned to the
caller with state `played_out`. -/
theorem invalidationOrderAndRemoval (config : Config) (m : SetupMap) (now : ℤ)
    (setup : BackburnerSetup) (candles : List Candle) (currentRSI currentPrice : ℚ)
    (higherTFBullish : Option Bool) (hcp : lastClose candles = currentPrice) :
    (isSetupInvalidated config
        (refreshSetup setup now currentRSI currentPrice higherTFBullish) candles = true ↔
      (currentPrice < setup.impulseLow ∨
        ((setup.state = .triggered ∨ setup.state = .deep_oversold) ∧
          setup.impulseHigh * (99 / 100) ≤ currentPrice) ∨
        (setup.state = .bouncing ∧ currentRSI < config.rsiOversoldThreshold))) ∧
    (isSetupInvalidated config
        (refreshSetup setup now currentRSI currentPrice higherTFBullish) candles = true →
      updateExistingSetup ⟨config, m⟩ now setup candles currentRSI currentPrice
          higherTFBullish =
        (some { refreshSetup setup now currentRSI currentPrice higherTFBullish with
                  state := .played_out },
         ⟨config, mapDelete m (setup.symbol, setup.timeframe)⟩)) := by
  constructor
  · unfold isSetupInvalidated refreshSetup
    rw [hcp]
    dsimp only
    split
    · simp_all
    · split
      · simp_all
      · split
        · simp_all
        · simp_all
  · intro hinv
    unfold updateExistingSetup
    simp only [hinv, if_true]

/-- A concrete live record used by the update-path witnesses. -/
def setupW : BackburnerSetup :=
  { symbol := "XUSDT", timeframe := .tf5m, state := .triggered
    impulseHigh := 130, impulseLow := 100, impulseStartTime := 0, impulseEndTime := 40
    impulsePercentMove := 44, currentRSI := 28, rsiAtTrigger := 28, currentPrice := 120
    entryPrice := some 120, detectedAt := 0, triggeredAt := some 0, lastUpdated := 0
    impulseAvgVolume := some 10, pullbackAvgVolume := some 10
    volumeContracting := false, higherTFBullish := none }

/-- A one-candle series whose close (50) is below `setupW`'s impulse low. -/
def candlesW2 : List Candle := [⟨0, 50, 50, 50, 50, 10⟩]

unseal Rat.add Rat.mul Rat.sub Rat.inv in
/-- Witness for C2: price 50 breaks `setupW`'s impulse low 100, so the
update marks the record `played_out` and empties the live set. -/
theorem invalidationOrderAndRemovalWitness :
    updateExistingSetup ⟨cfg2, [(("XUSDT", .tf5m), setupW)]⟩ 1 setupW candlesW2 25 50 none =
      (some { refreshSetup setupW 1 25 50 none with state := .played_out },
       ⟨cfg2, []⟩) :=
  (invalidationOrderAndRemoval cfg2 [(("XUSDT", .tf5m), setupW)] 1 setupW candlesW2
    25 50 none rfl).2 (by decide)

/-- C3: an update of an existing record that is not invalidated advances the
state by exactly the progression table `nextStateSpec` (deep oversold always
wins; else oversold gives `triggered`; else from `triggered`/`deep_oversold`
strictly above 40 is terminal and otherwise `bouncing`; from `bouncing`
strictly above 50 is terminal and otherwise `bouncing`; anything else is
unchanged), and a terminal outcome is removed from the live set while any
other outcome is stored back. -/
theorem progressionTableAndRemoval (config : Config) (m : SetupMap) (now : ℤ)
    (setup : BackburnerSetup) (candles : List Candle) (currentRSI currentPrice : ℚ)
    (higherTFBullish : Option Bool)
    (hni : isSetupInvalidated config
      (refreshSetup setup now currentRSI currentPrice higherTFBullish) candles = false) :
    determineSetupState config
        (refreshSetup setup now currentRSI currentPrice higherTFBullish) currentRSI =
      nextStateSpec config setup.state currentRSI ∧
    updateExistingSetup ⟨config, m⟩ now setup candles currentRSI currentPrice
        higherTFBullish =
      (some { refreshSetup setup now currentRSI currentPrice higherTFBullish with
                state := nextStateSpec config setup.state currentRSI },
       ⟨config,
        if nextStateSpec config setup.state currentRSI = .played_out then
          mapDelete m (setup.symbol, setup.timeframe)
        else
          mapSet m (setup.symbol, setup.timeframe)
            { refreshSetup setup now currentRSI currentPrice higherTFBullish with
                state := nextStateSpec config setup.state currentRSI }⟩) := by
  refine ⟨rfl, ?_⟩
  unfold updateExistingSetup
  simp only [hni, Bool.false_eq_true, if_false]
  rw [show determineSetupState config
      (refreshSetup setup now currentRSI currentPrice higherTFBullish) currentRSI =
    nextStateSpec config setup.state currentRSI from rfl]
  by_cases h : nextStateSpec config setup.state currentRSI = SetupState.played_out
  · simp only [h, if_true, ite_true]
  · simp only [h, if_false, ite_false]

unseal Rat.add Rat.mul Rat.sub Rat.inv in
/-- Witness for C3: `setupW` is `triggered` and the oscillator has risen to
45, above 40: the next evaluation marks it terminal and removes it (the
spec's own example of the progression table). -/
theorem progressionTableAndRemovalWitness :
    determineSetupState cfg2 (refreshSetup setupW 1 45 120 none) 45 =
      nextStateSpec cfg2 .triggered 45 ∧
    updateExistingSetup ⟨cfg2, [(("XUSDT", .tf5m), setupW)]⟩ 1 setupW
        [⟨0, 120, 120, 120, 120, 10⟩] 45 120 none =
      (some { refreshSetup setupW 1 45 120 none with state := .played_out },
       ⟨cfg2, []⟩) := by
  have h := progressionTableAndRemoval cfg2 [(("XUSDT", .tf5m), setupW)] 1 setupW
    [⟨0, 120, 120, 120, 120, 10⟩] 45 120 none (by decide)
  exact ⟨h.1, h.2⟩

/-- The scanning loop of `findHighestHigh` never lowers the running best. -/
lemma findHighestHighAux_le (cs : List Candle) : ∀ (best : Candle) (bestIdx i : ℕ),
    best.high ≤ (findHighestHighAux cs best bestIdx i).1.high ∧
    ∀ j < cs.length, (cs.getD j defaultCandle).high ≤ (findHighestHighAux cs best bestIdx i).1.high := by
  induction cs with
  | nil =>
    intro best bestIdx i
    refine ⟨le_refl _, ?_⟩
    intro j hj
    simp at hj
  | cons c cs ih =>
    intro best bestIdx i
    unfold findHighestHighAux
    by_cases h : best.high < c.high
    · rw [if_pos h]
      refine ⟨le_of_lt (lt_of_lt_of_le h (ih c i (i + 1)).1), ?_⟩
      intro j hj
      cases j with
      | zero => exact (ih c i (i + 1)).1
      | succ j => exact (ih c i (i + 1)).2 j (by simpa using hj)
    · rw [if_neg h]
      refine ⟨(ih best bestIdx (i + 1)).1, ?_⟩
      intro j hj
      cases j with
      | zero => exact le_trans (le_of_not_lt h) (ih best bestIdx (i + 1)).1
      | succ j => exact (ih best bestIdx (i + 1)).2 j (by simpa using hj)

/-- The scanning loop of `findHighestHigh` returns either its initial best
or an element of the remaining list, with the matching absolute index. -/
lemma findHighestHighAux_mem (cs : List Candle) : ∀ (best : Candle) (bestIdx i : ℕ),
    ((findHighestHighAux cs best bestIdx i).1 = best ∧
      (findHighestHighAux cs best bestIdx i).2 = bestIdx) ∨
    ∃ j, j < cs.length ∧ (findHighestHighAux cs best bestIdx i).1 = cs.getD j defaultCandle ∧
      (findHighestHighAux cs best bestIdx i).2 = i + j := by
  induction cs with
  | nil => intro best bestIdx i; exact Or.inl ⟨rfl, rfl⟩
  | cons c cs ih =>
    intro best bestIdx i
    unfold findHighestHighAux
    by_cases h : best.high < c.high
    · rw [if_pos h]
      rcases ih c i (i + 1) with ⟨h1, h2⟩ | ⟨j, hj, h1, h2⟩
      · exact Or.inr ⟨0, by simp, by simpa using h1, by omega⟩
      · refine Or.inr ⟨j + 1, ?_, by simpa using h1, by rw [h2]; omega⟩
        simpa using Nat.succ_lt_succ hj
    · rw [if_neg h]
      rcases ih best bestIdx (i + 1) with ⟨h1, h2⟩ | ⟨j, hj, h1, h2⟩
      · exact Or.inl ⟨h1, h2⟩
      · refine Or.inr ⟨j + 1, ?_, by simpa using h1, by rw [h2]; omega⟩
        simpa using Nat.succ_lt_succ hj

/-- On a nonempty window, `findHighestHigh` returns an in-range index, the
`high` of the candle at that index as its price, and an upper bound of all
the window's highs. -/
lemma findHighestHigh_spec (l : List Candle) (hne : l ≠ []) :
    (findHighestHigh l).index < l.length ∧
    (findHighestHigh l).price = (l.getD (findHighestHigh l).index defaultCandle).high ∧
    ∀ j < l.length, (l.getD j defaultCandle).high ≤ (findHighestHigh l).price := by
  cases l with
  | nil => exact absurd rfl hne
  | cons c cs =>
    have hle := findHighestHighAux_le cs c 0 1
    have hall : ∀ j < (c :: cs).length,
        ((c :: cs).getD j defaultCandle).high ≤ (findHighestHighAux cs c 0 1).1.high := by
      intro j hj
      cases j with
      | zero => exact hle.1
      | succ j => exact hle.2 j (by simpa using hj)
    rcases findHighestHighAux_mem cs c 0 1 with ⟨h1, h2⟩ | ⟨j, hj, h1, h2⟩
    · refine ⟨?_, ?_, ?_⟩
      · show (findHighestHighAux cs c 0 1).2 < (c :: cs).length
        simp [h2]
      · show (findHighestHighAux cs c 0 1).1.high =
          ((c :: cs).getD (findHighestHighAux cs c 0 1).2 defaultCandle).high
        rw [h1, h2]; simp
      · exact hall
    · refine ⟨?_, ?_, ?_⟩
      · show (findHighestHighAux cs c 0 1).2 < (c :: cs).length
        rw [h2]; simp; omega
      · show (findHighestHighAux cs c 0 1).1.high =
          ((c :: cs).getD (findHighestHighAux cs c 0 1).2 defaultCandle).high
        rw [h1, h2, show 1 + j = j + 1 from by omega]
        simp
      · exact hall

/-- The scanning loop of `findLowestLow` never raises the running best. -/
lemma findLowestLowAux_le (cs : List Candle) : ∀ (best : Candle) (bestIdx i : ℕ),
    (findLowestLowAux cs best bestIdx i).1.low ≤ best.low ∧
    ∀ j < cs.length, (findLowestLowAux cs best bestIdx i).1.low ≤ (cs.getD j defaultCandle).low := by
  induction cs with
  | nil =>
    intro best bestIdx i
    refine ⟨le_refl _, ?_⟩
    intro j hj
    simp at hj
  | cons c cs ih =>
    intro best bestIdx i
    unfold findLowestLowAux
    by_cases h : c.low < best.low
    · rw [if_pos h]
      refine ⟨le_of_lt (lt_of_le_of_lt (ih c i (i + 1)).1 h), ?_⟩
      intro j hj
      cases j with
      | zero => exact (ih c i (i + 1)).1
      | succ j => exact (ih c i (i + 1)).2 j (by simpa using hj)
    · rw [if_neg h]
      refine ⟨(ih best bestIdx (i + 1)).1, ?_⟩
      intro j hj
      cases j with
      | zero => exact le_trans (ih best bestIdx (i + 1)).1 (le_of_not_lt h)
      | succ j => exact (ih best bestIdx (i + 1)).2 j (by simpa using hj)

/-- The scanning loop of `findLowestLow` returns either its initial best or
an element of the remaining list, with the matching absolute index. -/
lemma findLowestLowAux_mem (cs : List Candle) : ∀ (best : Candle) (bestIdx i : ℕ),
    ((findLowestLowAux cs best bestIdx i).1 = best ∧
      (findLowestLowAux cs best bestIdx i).2 = bestIdx) ∨
    ∃ j, j < cs.length ∧ (findLowestLowAux cs best bestIdx i).1 = cs.getD j defaultCandle ∧
      (findLowestLowAux cs best bestIdx i).2 = i + j := by
  induction cs with
  | nil => intro best bestIdx i; exact Or.inl ⟨rfl, rfl⟩
  | cons c cs ih =>
    intro best bestIdx i
    unfold findLowestLowAux
    by_cases h : c.low < best.low
    · rw [if_pos h]
      rcases ih c i (i + 1) with ⟨h1, h2⟩ | ⟨j, hj, h1, h2⟩
      · exact Or.inr ⟨0, by simp, by simpa using h1, by omega⟩
      · refine Or.inr ⟨j + 1, ?_, by simpa using h1, by rw [h2]; omega⟩
        simpa using Nat.succ_lt_succ hj
    · rw [if_neg h]
      rcases ih best bestIdx (i + 1) with ⟨h1, h2⟩ | ⟨j, hj, h1, h2⟩
      · exact Or.inl ⟨h1, h2⟩
      · refine Or.inr ⟨j + 1, ?_, by simpa using h1, by rw [h2]; omega⟩
        simpa using Nat.succ_lt_succ hj

/-- On a nonempty window, `findLowestLow` returns an in-range index, the
`low` of the candle at that index as its price, and a lower bound of all the
window's lows. -/
lemma findLowestLow_spec (l : List Candle) (hne : l ≠ []) :
    (findLowestLow l).index < l.length ∧
    (findLowestLow l).price = (l.getD (findLowestLow l).index defaultCandle).low ∧
    ∀ j < l.length, (findLowestLow l).price ≤ (l.getD j defaultCandle).low := by
  cases l with
  | nil => exact absurd rfl hne
  | cons c cs =>
    have hle := findLowestLowAux_le cs c 0 1
    have hall : ∀ j < (c :: cs).length,
        (findLowestLowAux cs c 0 1).1.low ≤ ((c :: cs).getD j defaultCandle).low := by
      intro j hj
      cases j with
      | zero => exact hle.1
      | succ j => exact hle.2 j (by simpa using hj)
    rcases findLowestLowAux_mem cs c 0 1 with ⟨h1, h2⟩ | ⟨j, hj, h1, h2⟩
    · refine ⟨?_, ?_, ?_⟩
      · show (findLowestLowAux cs c 0 1).2 < (c :: cs).length
        simp [h2]
      · show (findLowestLowAux cs c 0 1).1.low =
          ((c :: cs).getD (findLowestLowAux cs c 0 1).2 defaultCandle).low
        rw [h1, h2]; simp
      · exact hall
    · refine ⟨?_, ?_, ?_⟩
      · show (findLowestLowAux cs c 0 1).2 < (c :: cs).length
        rw [h2]; simp; omega
      · show (findLowestLowAux cs c 0 1).1.low =
          ((c :: cs).getD (findLowestLowAux cs c 0 1).2 defaultCandle).low
        rw [h1, h2, show 1 + j = j + 1 from by omega]
        simp
      · exact hall

lemma detectImpulseMove_up_eq (candles : List Candle) (minPercentMove : ℚ)
    (lookbackPeriod : ℕ) (hlen : lookbackPeriod ≤ candles.length)
    (hidx : (findLowestLow (recentCandles candles lookbackPeriod)).index <
      (findHighestHigh (recentCandles candles lookbackPeriod)).index)
    (hpm : minPercentMove ≤
      ((findHighestHigh (recentCandles candles lookbackPeriod)).price -
        (findLowestLow (recentCandles candles lookbackPeriod)).price) /
        (findLowestLow (recentCandles candles lookbackPeriod)).price * 100) :
    detectImpulseMove candles minPercentMove lookbackPeriod =
      some ⟨(findLowestLow (recentCandles candles lookbackPeriod)).index,
        (findHighestHigh (recentCandles candles lookbackPeriod)).index,
        (findLowestLow (recentCandles candles lookbackPeriod)).price,
        (findHighestHigh (recentCandles candles lookbackPeriod)).price,
        ((findHighestHigh (recentCandles candles lookbackPeriod)).price -
          (findLowestLow (recentCandles candles lookbackPeriod)).price) /
          (findLowestLow (recentCandles candles lookbackPeriod)).price * 100, .up⟩ := by
  unfold detectImpulseMove
  rw [if_neg (not_lt.mpr hlen)]
  dsimp only
  rw [if_pos hidx, if_pos hpm]

lemma detectImpulseMove_up_small (candles : List Candle) (minPercentMove : ℚ)
    (lookbackPeriod : ℕ) (hlen : lookbackPeriod ≤ candles.length)
    (hidx : (findLowestLow (recentCandles candles lookbackPeriod)).index <
      (findHighestHigh (recentCandles candles lookbackPeriod)).index)
    (hpm : ((findHighestHigh (recentCandles candles lookbackPeriod)).price -
        (findLowestLow (recentCandles candles lookbackPeriod)).price) /
        (findLowestLow (recentCandles candles lookbackPeriod)).price * 100 < minPercentMove) :
    detectImpulseMove candles minPercentMove lookbackPeriod = none := by
  unfold detectImpulseMove
  rw [if_neg (not_lt.mpr hlen)]
  dsimp only
  rw [if_pos hidx, if_neg (not_le.mpr hpm)]

lemma detectImpulseMove_down_eq (candles : List Candle) (minPercentMove : ℚ)
    (lookbackPeriod : ℕ) (hlen : lookbackPeriod ≤ candles.length)
    (hidx : (findHighestHigh (recentCandles candles lookbackPeriod)).index <
      (findLowestLow (recentCandles candles lookbackPeriod)).index)
    (hpm : minPercentMove ≤
      ((findHighestHigh (recentCandles candles lookbackPeriod)).price -
        (findLowestLow (recentCandles candles lookbackPeriod)).price) /
        (findHighestHigh (recentCandles candles lookbackPeriod)).price * 100) :
    detectImpulseMove candles minPercentMove lookbackPeriod =
      some ⟨(findHighestHigh (recentCandles candles lookbackPeriod)).index,
        (findLowestLow (recentCandles candles lookbackPeriod)).index,
        (findHighestHigh (recentCandles candles lookbackPeriod)).price,
        (findLowestLow (recentCandles candles lookbackPeriod)).price,
        ((findHighestHigh (recentCandles candles lookbackPeriod)).price -
          (findLowestLow (recentCandles candles lookbackPeriod)).price) /
          (findHighestHigh (recentCandles candles lookbackPeriod)).price * 100, .down⟩ := by
  unfold detectImpulseMove
  rw [if_neg (not_lt.mpr hlen)]
  dsimp only
  rw [if_neg (by omega), if_pos hidx, if_pos hpm]

lemma detectImpulseMove_down_small (candles : List Candle) (minPercentMove : ℚ)
    (lookbackPeriod : ℕ) (hlen : lookbackPeriod ≤ candles.length)
    (hidx : (findHighestHigh (recentCandles candles lookbackPeriod)).index <
      (findLowestLow (recentCandles candles lookbackPeriod)).index)
    (hpm : ((findHighestHigh (recentCandles candles lookbackPeriod)).price -
        (findLowestLow (recentCandles candles lookbackPeriod)).price) /
        (findHighestHigh (recentCandles candles lookbackPeriod)).price * 100 < minPercentMove) :
    detectImpulseMove candles minPercentMove lookbackPeriod = none := by
  unfold detectImpulseMove
  rw [if_neg (not_lt.mpr hlen)]
  dsimp only
  rw [if_neg (by omega), if_pos hidx, if_neg (not_le.mpr hpm)]

lemma detectImpulseMove_same (candles : List Candle) (minPercentMove : ℚ)
    (lookbackPeriod : ℕ) (hlen : lookbackPeriod ≤ candles.length)
    (hidx : (findHighestHigh (recentCandles candles lookbackPeriod)).index =
      (findLowestLow (recentCandles candles lookbackPeriod)).index) :
    detectImpulseMove candles minPercentMove lookbackPeriod = none := by
  unfold detectImpulseMove
  rw [if_neg (not_lt.mpr hlen)]
  dsimp only
  rw [if_neg (by omega), if_neg (by omega)]

lemma recentCandles_length (candles : List Candle) (lookbackPeriod : ℕ)
    (hlen : lookbackPeriod ≤ candles.length) :
    (recentCandles candles lookbackPeriod).length = lookbackPeriod := by
  unfold recentCandles
  rw [List.length_drop]
  omega

/-- C5: the structural-move detector returns no move on windows shorter than
the lookback; otherwise it locates the (first) highest high and lowest low
of the most recent `lookbackPeriod` candles and returns an `up` move with
the extrema's indices and prices and `(high-low)/low*100` when the
highest-high index is strictly after the lowest-low index and that magnitude
reaches the threshold, a `down` move with `(high-low)/high*100` in the
symmetric ordering, and no move when the magnitude is below the threshold or
the two extrema share an index. -/
theorem structuralMoveCharacterization (candles : List Candle) (minPercentMove : ℚ)
    (lookbackPeriod : ℕ) (hlb : 0 < lookbackPeriod) :
    (candles.length < lookbackPeriod →
      detectImpulseMove candles minPercentMove lookbackPeriod = none) ∧
    (lookbackPeriod ≤ candles.length →
      (findHighestHigh (recentCandles candles lookbackPeriod)).index < lookbackPeriod ∧
      (findHighestHigh (recentCandles candles lookbackPeriod)).price =
        ((recentCandles candles lookbackPeriod).getD
          (findHighestHigh (recentCandles candles lookbackPeriod)).index defaultCandle).high ∧
      (findLowestLow (recentCandles candles lookbackPeriod)).index < lookbackPeriod ∧
      (findLowestLow (recentCandles candles lookbackPeriod)).price =
        ((recentCandles candles lookbackPeriod).getD
          (findLowestLow (recentCandles candles lookbackPeriod)).index defaultCandle).low ∧
      (∀ j < lookbackPeriod,
        ((recentCandles candles lookbackPeriod).getD j defaultCandle).high ≤
          (findHighestHigh (recentCandles candles lookbackPeriod)).price ∧
        (findLowestLow (recentCandles candles lookbackPeriod)).price ≤
          ((recentCandles candles lookbackPeriod).getD j defaultCandle).low) ∧
      ((findLowestLow (recentCandles candles lookbackPeriod)).index <
          (findHighestHigh (recentCandles candles lookbackPeriod)).index →
        (minPercentMove ≤
            ((findHighestHigh (recentCandles candles lookbackPeriod)).price -
              (findLowestLow (recentCandles candles lookbackPeriod)).price) /
              (findLowestLow (recentCandles candles lookbackPeriod)).price * 100 →
          detectImpulseMove candles minPercentMove lookbackPeriod =
            some ⟨(findLowestLow (recentCandles candles lookbackPeriod)).index,
              (findHighestHigh (recentCandles candles lookbackPeriod)).index,
              (findLowestLow (recentCandles candles lookbackPeriod)).price,
              (findHighestHigh (recentCandles candles lookbackPeriod)).price,
              ((findHighestHigh (recentCandles candles lookbackPeriod)).price -
                (findLowestLow (recentCandles candles lookbackPeriod)).price) /
                (findLowestLow (recentCandles candles lookbackPeriod)).price * 100, .up⟩) ∧
        (((findHighestHigh (recentCandles candles lookbackPeriod)).price -
            (findLowestLow (recentCandles candles lookbackPeriod)).price) /
            (findLowestLow (recentCandles candles lookbackPeriod)).price * 100 <
            minPercentMove →
          detectImpulseMove candles minPercentMove lookbackPeriod = none)) ∧
      ((findHighestHigh (recentCandles candles lookbackPeriod)).index <
          (findLowestLow (recentCandles candles lookbackPeriod)).index →
        (minPercentMove ≤
            ((findHighestHigh (recentCandles candles lookbackPeriod)).price -
              (findLowestLow (recentCandles candles lookbackPeriod)).price) /
              (findHighestHigh (recentCandles candles lookbackPeriod)).price * 100 →
          detectImpulseMove candles minPercentMove lookbackPeriod =
            some ⟨(findHighestHigh (recentCandles candles lookbackPeriod)).index,
              (findLowestLow (recentCandles candles lookbackPeriod)).index,
              (findHighestHigh (recentCandles candles lookbackPeriod)).price,
              (findLowestLow (recentCandles candles lookbackPeriod)).price,
              ((findHighestHigh (recentCandles candles lookbackPeriod)).price -
                (findLowestLow (recentCandles candles lookbackPeriod)).price) /
                (findHighestHigh (recentCandles candles lookbackPeriod)).price * 100,
              .down⟩) ∧
        (((findHighestHigh (recentCandles candles lookbackPeriod)).price -
            (findLowestLow (recentCandles candles lookbackPeriod)).price) /
            (findHighestHigh (recentCandles candles lookbackPeriod)).price * 100 <
            minPercentMove →
          detectImpulseMove candles minPercentMove lookbackPeriod = none)) ∧
      ((findHighestHigh (recentCandles candles lookbackPeriod)).index =
          (findLowestLow (recentCandles candles lookbackPeriod)).index →
        detectImpulseMove candles minPercentMove lookbackPeriod = none)) := by
  constructor
  · intro h
    unfold detectImpulseMove
    rw [if_pos h]
  · intro hlen
    have hR := recentCandles_length candles lookbackPeriod hlen
    have hne : recentCandles candles lookbackPeriod ≠ [] := by
      intro h
      rw [h] at hR
      simp at hR
      omega
    have hH := findHighestHigh_spec _ hne
    have hL := findLowestLow_spec _ hne
    rw [hR] at hH hL
    refine ⟨hH.1, hH.2.1, hL.1, hL.2.1, ?_, ?_, ?_, ?_⟩
    · intro j hj
      exact ⟨hH.2.2 j hj, hL.2.2 j hj⟩
    · intro hidx
      exact ⟨fun hpm => detectImpulseMove_up_eq candles minPercentMove lookbackPeriod
          hlen hidx hpm,
        fun hpm => detectImpulseMove_up_small candles minPercentMove lookbackPeriod
          hlen hidx hpm⟩
    · intro hidx
      exact ⟨fun hpm => detectImpulseMove_down_eq candles minPercentMove lookbackPeriod
          hlen hidx hpm,
        fun hpm => detectImpulseMove_down_small candles minPercentMove lookbackPeriod
          hlen hidx hpm⟩
    · intro heq
      exact detectImpulseMove_same candles minPercentMove lookbackPeriod hlen heq

/-- A two-candle window: lowest low 90 before highest high 130. -/
def candlesW5 : List Candle := [⟨0, 95, 100, 90, 95, 10⟩, ⟨1, 120, 130, 110, 120, 10⟩]

unseal Rat.add Rat.mul Rat.sub Rat.inv in
/-- Witness for C5: on `candlesW5` with threshold 5 and lookback 2, an
upward move from 90 to 130 over indices 0 to 1 is detected. -/
theorem structuralMoveCharacterizationWitness :
    detectImpulseMove candlesW5 5 2 =
      some ⟨0, 1, 90, 130, ((130 : ℚ) - 90) / 90 * 100, .up⟩ := by
  have h := (structuralMoveCharacterization candlesW5 5 2 (by decide)).2 (by decide)
  exact (h.2.2.2.2.2.1 (by decide)).1 (by decide)

lemma getD_drop {α : Type} (l : List α) (m i : ℕ) (d : α) :
    (l.drop m).getD i d = l.getD (m + i) d := by
  induction m generalizing l with
  | zero => simp
  | succ m ih =>
    cases l with
    | nil => simp
    | cons x xs =>
      rw [List.drop_succ_cons, ih xs]
      simp [Nat.succ_add]


lemma getD_map {α β : Type} (l : List α) (f : α → β) (i : ℕ) (d : α) :
    (l.map f).getD i (f d) = f (l.getD i d) := by
  induction l generalizing i with
  | nil => simp
  | cons x xs ih =>
    cases i with
    | zero => simp
    | succ i => simp only [List.map_cons, List.getD_cons_succ]; exact ih i

lemma getD_zip (as bs : List ℚ) (h : as.length = bs.length) (i : ℕ) :
    (as.zip bs).getD i (0, 0) = (as.getD i 0, bs.getD i 0) := by
  induction as generalizing bs i with
  | nil =>
    have hb : bs.length = 0 := by simpa using h.symm
    have hbs : bs = [] := List.length_eq_zero.mp hb
    simp [hbs]
  | cons a as ih =>
    cases bs with
    | nil => simp at h
    | cons b bs =>
      cases i with
      | zero => simp
      | succ i =>
        simpa using ih bs (by simpa using h) i

lemma changesOf_length (candles : List Candle) :
    (changesOf candles).length = candles.length - 1 := by
  simp [changesOf, List.length_zip]

lemma gainsOf_length (candles : List Candle) :
    (gainsOf candles).length = candles.length - 1 := by
  simp [gainsOf, changesOf_length]

lemma lossesOf_length (candles : List Candle) :
    (lossesOf candles).length = candles.length - 1 := by
  simp [lossesOf, changesOf_length]

/-- The average-gain recurrence as the specification states it: the first
average is the arithmetic mean of the first `period` gains, and each
subsequent average is `(avg * (period - 1) + newSample) / period` with the
next gain as the new sample. -/
def avgGainAt (candles : List Candle) (period : ℕ) : ℕ → ℚ
  | 0 => ((gainsOf candles).take period).sum / (period : ℚ)
  | i + 1 =>
    (avgGainAt candles period i * ((period : ℚ) - 1) +
      (gainsOf candles).getD (period + i) 0) / (period : ℚ)

/-- The average-loss recurrence as the specification states it. -/
def avgLossAt (candles : List Candle) (period : ℕ) : ℕ → ℚ
  | 0 => ((lossesOf candles).take period).sum / (period : ℚ)
  | i + 1 =>
    (avgLossAt candles period i * ((period : ℚ) - 1) +
      (lossesOf candles).getD (period + i) 0) / (period : ℚ)

/-- Iterated smoothing step over a list of (gain, loss) samples. -/
def stepAvg (period : ℕ) (gl : List (ℚ × ℚ)) (ag al : ℚ) : ℕ → ℚ × ℚ
  | 0 => (ag, al)
  | i + 1 =>
    (((stepAvg period gl ag al i).1 * ((period : ℚ) - 1) + (gl.getD i (0, 0)).1) / (period : ℚ),
     ((stepAvg period gl ag al i).2 * ((period : ℚ) - 1) + (gl.getD i (0, 0)).2) / (period : ℚ))

lemma stepAvg_cons (period : ℕ) (g l : ℚ) (gls : List (ℚ × ℚ)) (ag al : ℚ) (i : ℕ) :
    stepAvg period ((g, l) :: gls) ag al (i + 1) =
      stepAvg period gls ((ag * ((period : ℚ) - 1) + g) / (period : ℚ))
        ((al * ((period : ℚ) - 1) + l) / (period : ℚ)) i := by
  induction i with
  | zero => simp [stepAvg]
  | succ i ih =>
    show (((stepAvg period ((g, l) :: gls) ag al (i + 1)).1 * ((period : ℚ) - 1) +
        (((g, l) :: gls).getD (i + 1) (0, 0)).1) / (period : ℚ),
      ((stepAvg period ((g, l) :: gls) ag al (i + 1)).2 * ((period : ℚ) - 1) +
        (((g, l) :: gls).getD (i + 1) (0, 0)).2) / (period : ℚ)) = _
    rw [ih]
    simp [stepAvg]

/-- The smoothing loop produces one sample per (gain, loss) pair, whose
value applies `rsiVal` to the iterated averages and whose timestamp is the
matching entry of the timestamp list. -/
lemma rsiLoop_eq (period : ℕ) (gl : List (ℚ × ℚ)) : ∀ (ts : List ℤ) (ag al : ℚ),
    ts.length = gl.length →
    rsiLoop period gl ts ag al = (List.range gl.length).map (fun i =>
      ⟨rsiVal (stepAvg period gl ag al (i + 1)).1 (stepAvg period gl ag al (i + 1)).2,
       ts.getD i 0⟩) := by
  induction gl with
  | nil =>
    intro ts ag al h
    unfold rsiLoop
    simp
  | cons p gls ih =>
    intro ts ag al h
    obtain ⟨g, l⟩ := p
    cases ts with
    | nil => simp at h
    | cons t ts =>
      have hlen : ts.length = gls.length := by simpa using h
      show (⟨rsiVal ((ag * ((period : ℚ) - 1) + g) / (period : ℚ))
          ((al * ((period : ℚ) - 1) + l) / (period : ℚ)), t⟩ : RSIResult) ::
          rsiLoop period gls ts ((ag * ((period : ℚ) - 1) + g) / (period : ℚ))
            ((al * ((period : ℚ) - 1) + l) / (period : ℚ)) = _
      rw [ih ts _ _ hlen]
      rw [show ((g, l) :: gls : List (ℚ × ℚ)).length = gls.length + 1 from by simp,
        List.range_succ_eq_map, List.map_cons, List.map_map]
      congr 1
      case e_tail =>
        apply List.map_congr_left
        intro i _
        show _ = (⟨rsiVal (stepAvg period ((g, l) :: gls) ag al (Nat.succ i + 1)).1
            (stepAvg period ((g, l) :: gls) ag al (Nat.succ i + 1)).2,
          (t :: ts).getD (Nat.succ i) 0⟩ : RSIResult)
        rw [stepAvg_cons]
        simp [Nat.succ_eq_add_one]

/-- Iterating the smoothing step over the zipped post-seed gains/losses
computes exactly the specification's average recurrences. -/
lemma stepAvg_eq_avgAt (candles : List Candle) (period : ℕ) : ∀ (i : ℕ),
    stepAvg period (((gainsOf candles).drop period).zip ((lossesOf candles).drop period))
      (((gainsOf candles).take period).sum / (period : ℚ))
      (((lossesOf candles).take period).sum / (period : ℚ)) i =
    (avgGainAt candles period i, avgLossAt candles period i) := by
  intro i
  induction i with
  | zero => rfl
  | succ i ih =>
    have hz : (((gainsOf candles).drop period).zip
        ((lossesOf candles).drop period)).getD i (0, 0) =
        (((gainsOf candles).drop period).getD i 0,
         ((lossesOf candles).drop period).getD i 0) := by
      apply getD_zip
      simp [gainsOf_length, lossesOf_length]
    show (((stepAvg period _ _ _ i).1 * ((period : ℚ) - 1) + _) / (period : ℚ),
        ((stepAvg period _ _ _ i).2 * ((period : ℚ) - 1) + _) / (period : ℚ)) = _
    rw [ih, hz]
    show ((avgGainAt candles period i * ((period : ℚ) - 1) +
        ((gainsOf candles).drop period).getD i 0) / (period : ℚ),
      (avgLossAt candles period i * ((period : ℚ) - 1) +
        ((lossesOf candles).drop period).getD i 0) / (period : ℚ)) = _
    rw [getD_drop, getD_drop]
    rfl

lemma ts_getD (candles : List Candle) (m i : ℕ) :
    ((candles.drop m).map (fun c => c.timestamp)).getD i 0 =
      (candles.getD (m + i) defaultCandle).timestamp := by
  show ((candles.drop m).map (fun c => c.timestamp)).getD i
      ((fun c => c.timestamp) defaultCandle) = _
  rw [getD_map, getD_drop]

/-- C6: the oscillator routine returns the empty sequence on fewer than
`period + 1` candles, and otherwise exactly `length - period` samples, one
per candle from index `period` onward (carrying that candle's timestamp),
whose values apply the 100-vs-formula rule `rsiVal` to the averages given by
the specification's recurrences (`avgGainAt`/`avgLossAt`: arithmetic mean of
the first `period` gains/losses, then `(avg*(period-1)+new)/period`). -/
theorem oscillatorCharacterization (candles : List Candle) (period : ℕ)
    (_hp : 1 ≤ period) :
    (candles.length < period + 1 → calculateRSI candles period = []) ∧
    (period + 1 ≤ candles.length →
      calculateRSI candles period =
        (List.range (candles.length - period)).map (fun i =>
          ⟨rsiVal (avgGainAt candles period i) (avgLossAt candles period i),
           (candles.getD (period + i) defaultCandle).timestamp⟩)) := by
  constructor
  · intro h
    unfold calculateRSI
    rw [if_pos h]
  · intro hlen
    unfold calculateRSI
    rw [if_neg (by omega)]
    dsimp only
    have hts : ((candles.drop (period + 1)).map (fun c => c.timestamp)).length =
        (((gainsOf candles).drop period).zip ((lossesOf candles).drop period)).length := by
      simp [gainsOf_length, lossesOf_length, List.length_zip]
      omega
    rw [rsiLoop_eq period _ _ _ _ hts]
    have hzlen : (((gainsOf candles).drop period).zip
        ((lossesOf candles).drop period)).length = candles.length - 1 - period := by
      simp [gainsOf_length, lossesOf_length, List.length_zip]
    rw [hzlen]
    rw [show candles.length - period = (candles.length - 1 - period) + 1 from by omega,
      List.range_succ_eq_map, List.map_cons, List.map_map]
    congr 1
    case e_tail =>
      apply List.map_congr_left
      intro i _
      rw [stepAvg_eq_avgAt]
      show (⟨rsiVal (avgGainAt candles period (i + 1)) (avgLossAt candles period (i + 1)),
          ((candles.drop (period + 1)).map (fun c => c.timestamp)).getD i 0⟩ : RSIResult) = _
      rw [ts_getD]
      show _ = (⟨rsiVal (avgGainAt candles period (Nat.succ i))
          (avgLossAt candles period (Nat.succ i)),
        (candles.getD (period + Nat.succ i) defaultCandle).timestamp⟩ : RSIResult)
      rw [show period + 1 + i = period + Nat.succ i from by omega]

/-- A 15-candle series with rising closes. -/
def candlesW6 : List Candle := (List.range 15).map (fun (i : ℕ) =>
  { timestamp := (i : ℤ), open_ := 100 + (i : ℚ), high := 100 + (i : ℚ),
    low := 100 + (i : ℚ), close := 100 + (i : ℚ), volume := 10 })

/-- Witness for C6: for period 14 and exactly 15 candles the oscillator
routine produces exactly one sample, described by the seed averages. -/
theorem oscillatorCharacterizationWitness :
    calculateRSI candlesW6 14 =
      (List.range 1).map (fun i =>
        ⟨rsiVal (avgGainAt candlesW6 14 i) (avgLossAt candlesW6 14 i),
         (candlesW6.getD (14 + i) defaultCandle).timestamp⟩) :=
  (oscillatorCharacterization candlesW6 14 (by decide)).2 (by decide)

/-- The states a live stored record may carry. -/
def goodState (s : SetupState) : Prop :=
  s = .triggered ∨ s = .deep_oversold ∨ s = .bouncing

/-- The invariant of the active-set map: keys are unique (at most one live
record per (symbol, timeframe)) and every stored record is in an
actionable-or-bouncing state — never `watching`, never `played_out`. -/
def mapInv (m : SetupMap) : Prop :=
  (m.map (fun p => p.1)).Nodup ∧ ∀ p ∈ m, goodState p.2.state

lemma mapInv_nil : mapInv [] := ⟨List.nodup_nil, by simp⟩

lemma mapInv_delete (m : SetupMap) (k : SetupKey) (h : mapInv m) :
    mapInv (mapDelete m k) := by
  constructor
  · exact h.1.sublist ((List.filter_sublist m).map (fun p => p.1))
  · intro p hp
    exact h.2 p (List.mem_of_mem_filter hp)

lemma mapInv_set (m : SetupMap) (k : SetupKey) (v : BackburnerSetup)
    (h : mapInv m) (hv : goodState v.state) : mapInv (mapSet m k v) := by
  unfold mapSet
  split
  · constructor
    · have hkeys : (m.map (fun p => if p.1 = k then (k, v) else p)).map (fun p => p.1) =
          m.map (fun p => p.1) := by
        rw [List.map_map]
        apply List.map_congr_left
        intro p _
        by_cases hpk : p.1 = k
        · simp [hpk]
        · simp [hpk]
      rw [hkeys]
      exact h.1
    · intro p hp
      rw [List.mem_map] at hp
      obtain ⟨q, hq, rfl⟩ := hp
      by_cases hqk : q.1 = k
      · simpa [hqk] using hv
      · simpa [hqk] using h.2 q hq
  · next hfind =>
    constructor
    · rw [List.map_append]
      refine (List.nodup_append).mpr ⟨h.1, by simp, ?_⟩
      intro x hx hx'
      have hxk : x = k := by simpa using hx'
      rw [List.mem_map] at hx
      obtain ⟨q, hq, rfl⟩ := hx
      have hnone : m.find? (fun p => decide (p.1 = k)) = none := by
        cases hf : m.find? (fun p => decide (p.1 = k)) with
        | none => rfl
        | some p => rw [hf] at hfind; simp at hfind
      have := List.find?_eq_none.mp hnone q hq
      simp at this
      exact this hxk
    · intro p hp
      rcases List.mem_append.mp hp with hp | hp
      · exact h.2 p hp
      · have : p = (k, v) := by simpa using hp
        rw [this]
        exact hv

lemma mapGet_mem (m : SetupMap) (k : SetupKey) (v : BackburnerSetup)
    (h : mapGet m k = some v) : ∃ p, p ∈ m ∧ p.2 = v := by
  unfold mapGet at h
  cases hf : m.find? (fun p => decide (p.1 = k)) with
  | none => rw [hf] at h; simp at h
  | some p =>
    rw [hf] at h
    simp at h
    exact ⟨p, List.mem_of_find?_eq_some hf, h⟩

lemma determineSetupState_cases (config : Config) (s : BackburnerSetup)
    (currentRSI : ℚ) :
    determineSetupState config s currentRSI = .deep_oversold ∨
    determineSetupState config s currentRSI = .triggered ∨
    determineSetupState config s currentRSI = .bouncing ∨
    determineSetupState config s currentRSI = .played_out ∨
    determineSetupState config s currentRSI = s.state := by
  unfold determineSetupState
  dsimp only
  split
  · tauto
  · split
    · tauto
    · split
      · split <;> tauto
      · split
        · split <;> tauto
        · tauto

lemma updateExistingSetup_inv (d : Detector) (now : ℤ) (setup : BackburnerSetup)
    (candles : List Candle) (currentRSI currentPrice : ℚ) (higherTFBullish : Option Bool)
    (h : mapInv d.activeSetups) (hs : goodState setup.state) :
    mapInv ((updateExistingSetup d now setup candles currentRSI currentPrice
      higherTFBullish).2).activeSetups := by
  unfold updateExistingSetup
  dsimp only
  split
  · exact mapInv_delete _ _ h
  · split
    · exact mapInv_delete _ _ h
    · next hns =>
      apply mapInv_set _ _ _ h
      show goodState (determineSetupState d.config
        (refreshSetup setup now currentRSI currentPrice higherTFBullish) currentRSI)
      have hcases := determineSetupState_cases d.config
        (refreshSetup setup now currentRSI currentPrice higherTFBullish) currentRSI
      have hstate : (refreshSetup setup now currentRSI currentPrice higherTFBullish).state =
        setup.state := rfl
      have hnp : ¬ (determineSetupState d.config
          (refreshSetup setup now currentRSI currentPrice higherTFBullish) currentRSI =
          SetupState.played_out) := by
        intro hc
        exact hns (by simpa using hc)
      unfold goodState
      rcases hcases with hc | hc | hc | hc | hc
      · tauto
      · tauto
      · tauto
      · exact absurd hc hnp
      · rw [hc, hstate]
        exact hs

lemma detectNewSetup_inv (d : Detector) (now : ℤ) (symbol : String)
    (timeframe : Timeframe) (candles : List Candle) (rsiValues : List RSIResult)
    (currentRSI currentPrice : ℚ) (higherTFBullish : Option Bool)
    (h : mapInv d.activeSetups) :
    mapInv ((detectNewSetup d now symbol timeframe candles rsiValues currentRSI
      currentPrice higherTFBullish).2).activeSetups := by
  unfold detectNewSetup
  cases detectImpulseMove candles d.config.minImpulsePercent 50 with
  | none => exact h
  | some impulse =>
    dsimp only
    split
    · exact h
    · split
      · exact h
      · split
        · exact h
        · split
          · exact h
          · by_cases h1 : currentRSI < d.config.rsiDeepOversoldThreshold
            · rw [if_pos h1]
              rw [if_neg (by simp)]
              exact mapInv_set _ _ _ h (Or.inr (Or.inl rfl))
            · rw [if_neg h1]
              by_cases h2 : currentRSI < d.config.rsiOversoldThreshold
              · rw [if_pos h2]
                rw [if_neg (by simp)]
                exact mapInv_set _ _ _ h (Or.inl rfl)
              · rw [if_neg h2]
                rw [if_pos rfl]
                exact h

lemma analyzeSymbol_inv (d : Detector) (now : ℤ) (symbol : String)
    (timeframe : Timeframe) (candles : List Candle)
    (higherTFCandles : Option (List Candle)) (h : mapInv d.activeSetups) :
    mapInv ((analyzeSymbol d now symbol timeframe candles
      higherTFCandles).2).activeSetups := by
  unfold analyzeSymbol
  split
  · exact h
  · dsimp only
    cases getCurrentRSI candles d.config.rsiPeriod with
    | none => exact h
    | some currentRSI =>
      dsimp only
      split
      · exact h
      · cases hget : mapGet d.activeSetups (symbol, timeframe) with
        | none =>
          dsimp only
          exact detectNewSetup_inv _ _ _ _ _ _ _ _ _ h
        | some setup =>
          dsimp only
          obtain ⟨p, hp, hpv⟩ := mapGet_mem _ _ _ hget
          refine updateExistingSetup_inv _ _ _ _ _ _ _ h ?_
          rw [← hpv]
          exact h.2 p hp

/-- A public mutating operation of the detector. -/
inductive DetectorOp where
  | analyze (now : ℤ) (symbol : String) (timeframe : Timeframe)
      (candles : List Candle) (higherTFCandles : Option (List Candle))
  | remove (symbol : String) (timeframe : Timeframe)
  | clearAll

/-- Apply one public operation to the detector state. -/
def applyOp (d : Detector) : DetectorOp → Detector
  | .analyze now symbol timeframe candles higherTFCandles =>
    (analyzeSymbol d now symbol timeframe candles higherTFCandles).2
  | .remove symbol timeframe => removeSetup d symbol timeframe
  | .clearAll => clearAllSetups d

/-- Apply a sequence of public operations. -/
def applyOps (d : Detector) (ops : List DetectorOp) : Detector :=
  ops.foldl applyOp d

lemma applyOp_inv (d : Detector) (op : DetectorOp) (h : mapInv d.activeSetups) :
    mapInv ((applyOp d op).activeSetups) := by
  cases op with
  | analyze now symbol timeframe candles higherTFCandles =>
    exact analyzeSymbol_inv _ _ _ _ _ _ h
  | remove symbol timeframe => exact mapInv_delete _ _ h
  | clearAll => exact mapInv_nil

/-- C7: after any sequence of public operations (evaluate-and-update,
manual removal, clear-all) starting from a fresh detector, the live map has
at most one record per (symbol, timeframe) key and every stored record's
state is `triggered`, `deep_oversold` or `bouncing`: `watching` is never
stored and `played_out` is removed by the operation that produces it. -/
theorem activeSetInvariant (config : Config) (ops : List DetectorOp) :
    mapInv ((applyOps ⟨config, []⟩ ops).activeSetups) := by
  have main : ∀ (ops : List DetectorOp) (d : Detector), mapInv d.activeSetups →
      mapInv ((applyOps d ops).activeSetups) := by
    intro ops
    induction ops with
    | nil => intro d h; exact h
    | cons op ops ih =>
      intro d h
      exact ih (applyOp d op) (applyOp_inv d op h)
  exact main ops ⟨config, []⟩ mapInv_nil

/-- Witness for C7 at a concrete operation sequence: a scan that creates a
record, a manual removal and a clear-all. -/
theorem activeSetInvariantWitness :
    mapInv ((applyOps ⟨cfg2, []⟩
      [.analyze 0 "XUSDT" .tf5m candlesA none, .remove "XUSDT" .tf5m,
        .clearAll]).activeSetups) :=
  activeSetInvariant cfg2
    [.analyze 0 "XUSDT" .tf5m candlesA none, .remove "XUSDT" .tf5m, .clearAll]
